import Mathlib

/-!
Verification of the forecast client binding and forecast provider of the
`dotnet6-openapi` repository: the wire data model, the generated client
request/response contract (`WeatherForecastService.getWeatherForecast`),
the cancelable-promise state machine, the provider controller, and the
environment-sensitive startup of `Program.cs`.
-/

namespace ForecastSpec

/-! ## JSON values (the wire representation of §6) -/

/-- A JSON value, restricted to the constructs the wire schema uses:
null, strings, integers, arrays and objects. -/
inductive Json where
  | jnull
  | jstr (s : String)
  | jint (n : Int)
  | jarr (xs : List Json)
  | jobj (fields : List (String × Json))
deriving Repr

/-- Field lookup in a JSON object; `none` on non-objects or missing keys. -/
def Json.lookupField : Json → String → Option Json
  | .jobj fs, k => fs.lookup k
  | _, _ => none

/-! ## The WeatherForecast record (models/WeatherForecast of the codegen,
with fields `date`, `temperatureC`, `temperatureF`, `summary`; the summary
is nullable per the wire schema of §6). -/

structure WeatherForecast where
  date : String
  temperatureC : Int
  temperatureF : Int
  summary : Option String
deriving Repr, DecidableEq

/-- Modelled from the spec: the deserialization performed by the client
binding core (`core/request.ts` of the codegen output, not present in the
tree). A JSON value deserializes to a nullable string exactly when it is
`null` or a string. -/
def decodeSummary : Json → Option (Option String)
  | .jnull => some none
  | .jstr s => some (some s)
  | _ => none

/-- Modelled from the spec: deserialization of one wire object into a
`WeatherForecast` record, field for field (`date` a string,
`temperatureC` and `temperatureF` integers, `summary` string or null). -/
def decodeForecast (j : Json) : Option WeatherForecast :=
  match j.lookupField "date", j.lookupField "temperatureC",
        j.lookupField "temperatureF", j.lookupField "summary" with
  | some (.jstr d), some (.jint c), some (.jint f), some sj =>
      (decodeSummary sj).map fun s => ⟨d, c, f, s⟩
  | _, _, _, _ => none

/-- Elementwise deserialization of a list of wire objects. -/
def decodeForecasts : List Json → Option (List WeatherForecast)
  | [] => some []
  | j :: js =>
      match decodeForecast j, decodeForecasts js with
      | some w, some ws => some (w :: ws)
      | _, _ => none

/-- Modelled from the spec: deserialization of a whole response body,
which must be a JSON array of wire objects. -/
def decodeForecastList : Json → Option (List WeatherForecast)
  | .jarr xs => decodeForecasts xs
  | _ => none

/-- Serialization of a nullable summary back to JSON. -/
def encodeSummary : Option String → Json
  | none => .jnull
  | some s => .jstr s

/-- Serialization of one record to its wire object (§6 field names). -/
def encodeForecast (w : WeatherForecast) : Json :=
  .jobj [("date", .jstr w.date), ("temperatureC", .jint w.temperatureC),
         ("temperatureF", .jint w.temperatureF), ("summary", encodeSummary w.summary)]

/-- Serialization of a record sequence to the wire array. -/
def encodeForecastList (ws : List WeatherForecast) : Json :=
  .jarr (ws.map encodeForecast)

/-- The single-element mock response body of §8. -/
def mockResponseBody : Json :=
  .jarr [.jobj [("date", .jstr "2024-01-01"), ("temperatureC", .jint 20),
                ("temperatureF", .jint 68), ("summary", .jstr "Mild")]]

/-- The record the §8 mock response denotes. -/
def mockRecord : WeatherForecast :=
  { date := "2024-01-01", temperatureC := 20, temperatureF := 68, summary := some "Mild" }

/-! ## The client request contract
(`WeatherForecastService.getWeatherForecast`, lines 14–19 of
`web/references/codegen/services/WeatherForecastService.ts`). -/

/-- The request descriptor the service hands to the request core: the
source passes exactly a method, a path and nothing else (no parameters,
no query, no body). -/
structure ApiRequest where
  method : String
  path : String
  query : List (String × String)
deriving Repr, DecidableEq

/-- The one request descriptor `getWeatherForecast` constructs:
`{ method: 'GET', path: `/WeatherForecast` }`. -/
def getWeatherForecastRequest : ApiRequest :=
  { method := "GET", path := "/WeatherForecast", query := [] }

/-- One client invocation appends exactly one request to the outbound
network log, independently of what was already sent (no cache to consult,
no deduplication against in-flight identical calls). -/
def invokeOnce (log : List ApiRequest) : List ApiRequest :=
  log ++ [getWeatherForecastRequest]

/-- The outbound network log after `n` successive invocations. -/
def invokeTimes : Nat → List ApiRequest
  | 0 => []
  | n + 1 => invokeOnce (invokeTimes n)

/-! ## Transport outcomes and the failure taxonomy (§5, §7) -/

/-- What the transport reports back for one issued request: a completed
HTTP exchange with a status and a body, or no completion at all
(DNS/connection failure, timeout). -/
inductive TransportOutcome where
  | completed (status : Nat) (body : Json)
  | failed (message : String)

/-- Modelled from the spec: the error taxonomy of §7 for the client core
(`core/ApiError.ts` / `core/request.ts`, not present in the tree):
`TransportError` for a transport that cannot complete, `ServerError` for
a non-2xx HTTP status carrying that status and a message. -/
inductive ApiFailure where
  | transportError (message : String)
  | serverError (status : Nat) (message : String)
deriving Repr, DecidableEq

/-- 2xx statuses are the successful ones. -/
def isSuccessStatus (status : Nat) : Bool :=
  200 ≤ status && status < 300

/-- The human-readable message attached to a non-success status. -/
def statusMessage (status : Nat) : String :=
  if status = 500 then "Internal Server Error" else "HTTP " ++ toString status

/-- Modelled from the spec: the settlement of one `getWeatherForecast()`
invocation as a function of the single transport outcome it consumes
(`core/request.ts` is not in the tree). A failed transport rejects with a
`TransportError`; a non-2xx status rejects with a `ServerError` carrying
the status; a 2xx status resolves to the deserialized body (a body not
matching the wire schema rejects with a `ServerError` carrying the
status). No second transport outcome is ever consulted: no retry. -/
def getWeatherForecast (t : TransportOutcome) : Except ApiFailure (List WeatherForecast) :=
  match t with
  | .failed msg => .error (.transportError msg)
  | .completed status body =>
      if isSuccessStatus status then
        match decodeForecastList body with
        | some ws => .ok ws
        | none => .error (.serverError status "unexpected response body")
      else .error (.serverError status (statusMessage status))

/-! ## The cancelable-promise state machine (§4.2, §5;
`core/CancelablePromise.ts` of the codegen output is not in the tree). -/

/-- Modelled from the spec: the states of the asynchronous computation,
`Pending → Fulfilled(value) | Rejected(error) | Canceled`. -/
inductive PromiseState (α ε : Type) where
  | pending
  | fulfilled (v : α)
  | rejected (e : ε)
  | canceled
deriving Repr, DecidableEq

/-- The three events that can act on the computation: the transport
resolving it, the transport rejecting it, and the caller aborting it. -/
inductive PromiseOp (α ε : Type) where
  | resolve (v : α)
  | reject (e : ε)
  | cancel
deriving Repr, DecidableEq

/-- Modelled from the spec: one step of the computation. An event acts
only on a `pending` computation; each of the three outcome states is
terminal and absorbs every later event. -/
def applyOp {α ε : Type} : PromiseOp α ε → PromiseState α ε → PromiseState α ε
  | .resolve v, .pending => .fulfilled v
  | .reject e, .pending => .rejected e
  | .cancel, .pending => .canceled
  | _, s => s

/-- Running a whole sequence of events from a given state. -/
def runOps {α ε : Type} (s : PromiseState α ε) : List (PromiseOp α ε) → PromiseState α ε
  | [] => s
  | op :: ops => runOps (applyOp op s) ops

/-- The pending-state accessor of the computation (the
`CancelablePromise` exposes such state flags to its callers). -/
def PromiseState.isPending {α ε : Type} : PromiseState α ε → Bool
  | .pending => true
  | _ => false

/-- The fulfilled-state accessor. -/
def PromiseState.isFulfilled {α ε : Type} : PromiseState α ε → Bool
  | .fulfilled _ => true
  | _ => false

/-- The rejected-state accessor. -/
def PromiseState.isRejected {α ε : Type} : PromiseState α ε → Bool
  | .rejected _ => true
  | _ => false

/-- The canceled-state accessor. -/
def PromiseState.isCanceled {α ε : Type} : PromiseState α ε → Bool
  | .canceled => true
  | _ => false

/-- The caller-visible continuations a step can invoke. -/
inductive Continuation where
  | onFulfilled
  | onRejected
  | onCancel
deriving Repr, DecidableEq

/-- Modelled from the spec: the continuations one step invokes. Only a
step out of `pending` fires anything; cancellation fires the cancel
handlers (releasing the transport resource) and never the success or
failure continuations. -/
def firedBy {α ε : Type} : PromiseOp α ε → PromiseState α ε → List Continuation
  | .resolve _, .pending => [.onFulfilled]
  | .reject _, .pending => [.onRejected]
  | .cancel, .pending => [.onCancel]
  | _, _ => []

/-! ## The global base-URL configuration (§4.2 Configuration;
`OpenAPI.BASE` is set in `web/src/App.svelte` line 12, the `OpenAPI`
config object of `core/OpenAPI.ts` is not in the tree). -/

/-- Modelled from the spec: the process-wide client configuration — a
single mutable base-URL value with no other enforced lifecycle. -/
structure OpenAPIConfig where
  BASE : String
deriving Repr, DecidableEq

/-- Writing the base URL: `OpenAPI.BASE = url`. A plain overwrite of the
global — nothing checks or freezes it. -/
def setBase (cfg : OpenAPIConfig) (url : String) : OpenAPIConfig :=
  { cfg with BASE := url }

/-- Modelled from the spec: the URL the request core constructs for a
request descriptor — the current global base URL followed by the
request path. -/
def requestUrl (cfg : OpenAPIConfig) (req : ApiRequest) : String :=
  cfg.BASE ++ req.path

/-- The base URL the reference UI sets before first use
(`App.svelte` line 12). -/
def appBaseUrl : String := "https://localhost:7277"

/-! ## Caller-side handling of the settled outcome (§7;
`App.svelte` lines 29–35: the `#await` block has a pending branch and a
`:then` branch only — no `:catch`). -/

/-- A settled (terminal) outcome of the computation, as §7 taxonomizes
it for the caller. -/
inductive SettledOutcome (α ε : Type) where
  | fulfilled (v : α)
  | rejected (e : ε)
  | canceled
deriving Repr, DecidableEq

/-- What the caller environment observes of a settled computation:
the fulfilled value rendered, a failure consumed by an installed
handler, or an unhandled-rejection condition carrying the outcome. -/
inductive CallerObservation (α ε : Type) where
  | rendered (v : α)
  | handledFailure (o : SettledOutcome α ε)
  | unhandledRejection (o : SettledOutcome α ε)
deriving Repr, DecidableEq

/-- Whether an observation is a rendered (fulfilled) value. -/
def CallerObservation.isRendered {α ε : Type} : CallerObservation α ε → Bool
  | .rendered _ => true
  | _ => false

/-- Modelled from the spec: standard asynchronous-computation semantics
for settlement at the caller. The binding passes the outcome through
unchanged: a fulfilled value reaches the success branch; a rejected or
canceled outcome reaches an installed failure handler when there is one
and otherwise surfaces as an unhandled-rejection condition — it is never
turned into a fulfilled value and never dropped. -/
def observeOutcome {α ε : Type} (handlesFailure : Bool) :
    SettledOutcome α ε → CallerObservation α ε
  | .fulfilled v => .rendered v
  | .rejected e =>
      if handlesFailure then .handledFailure (.rejected e)
      else .unhandledRejection (.rejected e)
  | .canceled =>
      if handlesFailure then .handledFailure .canceled
      else .unhandledRejection .canceled

/-- The reference UI installs no failure handler: its `#await` block has
only the pending and `:then` branches (`App.svelte` lines 29–35). -/
def appHandlesFailure : Bool := false

/-! ## The forecast provider (§3, §4.1;
`WeatherForecastController.Get` as reproduced in the repository README,
`src/unnamed/part_000` lines 258–268). -/

/-- Modelled from the spec: the provider-side temperature conversion of
§3 (the `WeatherForecast` model class of the API project is not in the
tree): `F = 32 + C × 9/5`, rounded. -/
def temperatureFOf (c : Int) : Int :=
  32 + round ((9 * (c : ℚ)) / 5)

/-- The fixed summary vocabulary of the provider template (§3: a small
fixed set whose exact wording is not load-bearing). -/
def summaries : List String :=
  ["Freezing", "Bracing", "Chilly", "Cool", "Mild", "Warm", "Balmy",
   "Hot", "Sweltering", "Scorching"]

/-- One freshly generated provider record: the date and temperature come
from the per-request generators, `temperatureF` is derived from
`temperatureC` by the conversion. -/
def makeForecast (date : String) (c : Int) (summary : Option String) : WeatherForecast :=
  { date := date, temperatureC := c, temperatureF := temperatureFOf c, summary := summary }

/-- `WeatherForecastController.Get`: `Enumerable.Range(1, 5)` mapped to
fresh records — index `1..5`, a generated date, a generated temperature,
a summary drawn from the vocabulary by a generated index. The random
source is abstracted as the oracle functions `dateAt`, `randC`,
`randS`. -/
def controllerGet (dateAt : Nat → String) (randC : Nat → Int) (randS : Nat → Nat) :
    List WeatherForecast :=
  (List.range 5).map fun i =>
    let index := i + 1
    makeForecast (dateAt index) (randC index)
      (some (summaries.getD (randS index % summaries.length) ""))

/-- An HTTP response of the provider: status code and record body. -/
structure ProviderResponse where
  status : Nat
  body : List WeatherForecast
deriving Repr, DecidableEq

/-- The provider handling one `GET /WeatherForecast` request: the
controller result with HTTP 200, for any query string and any
(absent or present) authorization header — the operation declares no
parameters and no authentication requirement. -/
def handleGetWeatherForecast (query : List (String × String)) (authHeader : Option String)
    (dateAt : Nat → String) (randC : Nat → Int) (randS : Nat → Nat) : ProviderResponse :=
  { status := 200, body := controllerGet dateAt randC randS }

/-! ## Environment-sensitive startup (`Program.cs`, reproduced in
`src/api/Dockerfile`; the Dockerfile sets
`ASPNETCORE_ENVIRONMENT=container`). -/

/-- ASCII lowercasing of one character. -/
def asciiLower (c : Char) : Char :=
  if 65 ≤ c.toNat ∧ c.toNat ≤ 90 then Char.ofNat (c.toNat + 32) else c

/-- ASP.NET Core environment-name comparison (`IsEnvironment`,
`IsDevelopment`) is case-insensitive (ordinal-ignore-case). -/
def envNameIs (env name : String) : Bool :=
  env.data.map asciiLower == name.data.map asciiLower

/-- The startup-relevant surface of the built application pipeline. -/
structure AppPipeline where
  extraUrls : List String
  swaggerEnabled : Bool
  swaggerUIEnabled : Bool
deriving Repr, DecidableEq

/-- `Program.cs`: in the `container` environment the app additionally
listens on `http://0.0.0.0:8080`; in the `Development` environment it
additionally serves the Swagger schema and UI. -/
def buildApp (env : String) : AppPipeline :=
  { extraUrls := if envNameIs env "container" then ["http://0.0.0.0:8080"] else []
    swaggerEnabled := envNameIs env "Development"
    swaggerUIEnabled := envNameIs env "Development" }

/-- The environment name the Dockerfile sets
(`ENV ASPNETCORE_ENVIRONMENT=container`). -/
def dockerfileEnvironment : String := "container"

/-! ## Helper lemmas -/

theorem decodeForecast_encodeForecast (w : WeatherForecast) :
    decodeForecast (encodeForecast w) = some w := by
  cases w with
  | mk d c f s => cases s <;> rfl

theorem decodeForecasts_encode (ws : List WeatherForecast) :
    decodeForecasts (ws.map encodeForecast) = some ws := by
  induction ws with
  | nil => rfl
  | cons w ws ih =>
      simp only [List.map_cons, decodeForecasts, decodeForecast_encodeForecast, ih]

theorem decodeForecastList_encodeForecastList (ws : List WeatherForecast) :
    decodeForecastList (encodeForecastList ws) = some ws :=
  decodeForecasts_encode ws

/-! ## Claim theorems -/

/-- C1: for every JSON array response conforming to the wire schema of §6
(an array of objects with fields `date`, `temperatureC`, `temperatureF`,
`summary`), `getWeatherForecast()` resolves to the sequence of
`WeatherForecast` records field-for-field equal to the input JSON, in
array order; on the single-element mock response of §8 it resolves to
exactly one record equal to that object. -/
theorem getWeatherForecast_roundtrip :
    (∀ ws : List WeatherForecast,
        getWeatherForecast (.completed 200 (encodeForecastList ws)) = .ok ws)
    ∧ getWeatherForecast (.completed 200 mockResponseBody) = .ok [mockRecord] := by
  constructor
  · intro ws
    simp [getWeatherForecast, isSuccessStatus, decodeForecastList_encodeForecastList]
  · rfl

/-- C2: aborting a pending (in-flight) computation settles it into the
distinct `canceled` terminal state — not into fulfillment, not into
rejection — and that state then absorbs every later event, so a caller
can always distinguish the caller-initiated-cancel outcome from a
transport or server failure. -/
theorem cancel_distinct_terminal {α ε : Type} :
    applyOp (PromiseOp.cancel : PromiseOp α ε) .pending = .canceled
    ∧ (applyOp (PromiseOp.cancel : PromiseOp α ε) .pending).isCanceled = true
    ∧ (applyOp (PromiseOp.cancel : PromiseOp α ε) .pending).isFulfilled = false
    ∧ (applyOp (PromiseOp.cancel : PromiseOp α ε) .pending).isRejected = false
    ∧ (∀ op : PromiseOp α ε, applyOp op (applyOp .cancel .pending) = .canceled) :=
  ⟨rfl, rfl, rfl, rfl, fun op => by cases op <;> rfl⟩

/-- C3: the computation follows
`Pending → Fulfilled(value) | Rejected(error) | Canceled`: the three
outcome states are terminal (every later event is absorbed), no step
produces `pending` from a non-pending state, a canceled computation stays
canceled under every event sequence, no continuation fires in the
canceled state, and the cancel step itself fires only the cancel
handlers, never the success or failure continuations. -/
theorem promise_state_machine {α ε : Type} :
    (∀ (op : PromiseOp α ε) (v : α), applyOp op (.fulfilled v) = .fulfilled v)
    ∧ (∀ (op : PromiseOp α ε) (e : ε), applyOp op (.rejected e) = .rejected e)
    ∧ (∀ op : PromiseOp α ε, applyOp op .canceled = .canceled)
    ∧ (∀ (op : PromiseOp α ε) (s : PromiseState α ε),
        (applyOp op s).isPending ≤ s.isPending)
    ∧ (∀ ops : List (PromiseOp α ε), runOps .canceled ops = .canceled)
    ∧ (∀ op : PromiseOp α ε, firedBy op .canceled = [])
    ∧ firedBy (PromiseOp.cancel : PromiseOp α ε) .pending = [.onCancel] := by
  refine ⟨?_, ?_, ?_, ?_, ?_, ?_, rfl⟩
  · intro op v; cases op <;> rfl
  · intro op e; cases op <;> rfl
  · intro op; cases op <;> rfl
  · intro op s; cases op <;> cases s <;> simp [applyOp, PromiseState.isPending]
  · intro ops
    induction ops with
    | nil => rfl
    | cons op ops ih =>
        have h : applyOp op (PromiseState.canceled : PromiseState α ε) = .canceled := by
          cases op <;> rfl
        simpa [runOps, h] using ih
  · intro op; cases op <;> rfl

/-- C4: an invocation of `getWeatherForecast()` fails exactly when the
transport returns a non-success status or cannot complete; the failure
carries the HTTP status when available and a human-readable message; the
settlement consumes a single transport outcome (no internal retry); and
a transport returning HTTP 500 yields rejection with a `ServerError`
carrying status 500. -/
theorem getWeatherForecast_failure_semantics :
    (∀ msg : String, getWeatherForecast (.failed msg) = .error (.transportError msg))
    ∧ (∀ (status : Nat) (ws : List WeatherForecast),
        getWeatherForecast (.completed status (encodeForecastList ws)) = .ok ws
          ↔ isSuccessStatus status = true)
    ∧ (∀ (status : Nat) (body : Json), isSuccessStatus status = false →
        getWeatherForecast (.completed status body)
          = .error (.serverError status (statusMessage status)))
    ∧ (∀ body : Json, getWeatherForecast (.completed 500 body)
        = .error (.serverError 500 "Internal Server Error")) := by
  refine ⟨fun msg => rfl, ?_, ?_, ?_⟩
  · intro status ws
    by_cases h : isSuccessStatus status = true
    · simp [getWeatherForecast, h, decodeForecastList_encodeForecastList]
    · simp [getWeatherForecast, h]
  · intro status body h
    simp [getWeatherForecast, h]
  · intro body
    have h : isSuccessStatus 500 = false := rfl
    simp [getWeatherForecast, h, statusMessage]

/-- C4 witness: at status 500 with the mock body, the non-success
hypothesis holds by computation and the theorem yields the `ServerError`
rejection carrying status 500. -/
theorem getWeatherForecast_failure_semantics_witness :
    isSuccessStatus 500 = false
    ∧ getWeatherForecast (.completed 500 mockResponseBody)
        = .error (.serverError 500 (statusMessage 500)) :=
  ⟨rfl, getWeatherForecast_failure_semantics.2.2.1 500 mockResponseBody rfl⟩

/-- C5: `getWeatherForecast()` takes no input parameters and constructs
exactly the descriptor `GET /WeatherForecast` with an empty query; each
invocation appends exactly one such request to the outbound network log,
so `n` invocations produce exactly `n` network requests — no caching and
no deduplication. -/
theorem getWeatherForecast_one_request_per_invocation :
    (getWeatherForecastRequest.method = "GET"
      ∧ getWeatherForecastRequest.path = "/WeatherForecast"
      ∧ getWeatherForecastRequest.query = [])
    ∧ (∀ n : Nat, invokeTimes n = List.replicate n getWeatherForecastRequest)
    ∧ (∀ n : Nat, (invokeTimes n).length = n) := by
  refine ⟨⟨rfl, rfl, rfl⟩, ?_, ?_⟩
  · intro n
    induction n with
    | zero => rfl
    | succ n ih =>
        simp [invokeTimes, invokeOnce, ih, List.replicate_succ']
  · intro n
    induction n with
    | zero => rfl
    | succ n ih => simp [invokeTimes, invokeOnce, ih]

/-- C6: every record the provider produces has `temperatureF` equal to
the rounded standard Celsius-to-Fahrenheit conversion of its
`temperatureC` (`F = 32 + C × 9/5`, rounded); in particular
`temperatureC = 0` yields `temperatureF = 32` and `temperatureC = 100`
yields `temperatureF = 212`. -/
theorem temperatureF_conversion :
    (∀ (dateAt : Nat → String) (randC : Nat → Int) (randS : Nat → Nat),
        ∀ w ∈ controllerGet dateAt randC randS,
          w.temperatureF = 32 + round ((9 * (w.temperatureC : ℚ)) / 5))
    ∧ temperatureFOf 0 = 32 ∧ temperatureFOf 100 = 212 := by
  refine ⟨?_, ?_, ?_⟩
  · intro dateAt randC randS w hw
    simp only [controllerGet, List.mem_map] at hw
    obtain ⟨i, _, rfl⟩ := hw
    rfl
  · norm_num [temperatureFOf, round_eq]
  · norm_num [temperatureFOf, round_eq]

/-- C6 witness: the first record of a concrete provider run is a member
of the produced list, and the theorem yields the conversion identity for
it. -/
theorem temperatureF_conversion_witness :
    makeForecast "2024-01-01" 0 (some "Freezing")
        ∈ controllerGet (fun _ => "2024-01-01") (fun _ => 0) (fun _ => 0)
    ∧ (makeForecast "2024-01-01" 0 (some "Freezing")).temperatureF
        = 32 + round ((9 * ((makeForecast "2024-01-01" 0 (some "Freezing")).temperatureC : ℚ)) / 5) :=
  ⟨List.Mem.head _,
   temperatureF_conversion.1 (fun _ => "2024-01-01") (fun _ => 0) (fun _ => 0)
     (makeForecast "2024-01-01" 0 (some "Freezing")) (List.Mem.head _)⟩

/-- C7: every `GET /WeatherForecast` request that reaches the provider
succeeds with HTTP 200 and a body of exactly five records, and the
response does not depend on the query string or on any authorization
header. -/
theorem provider_get_contract :
    ∀ (query : List (String × String)) (authHeader : Option String)
      (dateAt : Nat → String) (randC : Nat → Int) (randS : Nat → Nat),
      (handleGetWeatherForecast query authHeader dateAt randC randS).status = 200
      ∧ (handleGetWeatherForecast query authHeader dateAt randC randS).body.length = 5
      ∧ (∀ (query2 : List (String × String)) (authHeader2 : Option String),
          handleGetWeatherForecast query2 authHeader2 dateAt randC randS
            = handleGetWeatherForecast query authHeader dateAt randC randS) := by
  intro query authHeader dateAt randC randS
  refine ⟨rfl, ?_, fun query2 authHeader2 => rfl⟩
  simp [handleGetWeatherForecast, controllerGet]

/-- C8: the single process-wide base-URL setting determines the host of
every constructed request: after the consuming application writes the
base URL, the URL built for the `getWeatherForecast` descriptor is that
base URL followed by `/WeatherForecast`; the setting is a plain mutable
value — a later write simply overwrites it, with no other enforced
lifecycle. -/
theorem base_url_configuration :
    (∀ (cfg : OpenAPIConfig) (url : String),
        requestUrl (setBase cfg url) getWeatherForecastRequest = url ++ "/WeatherForecast")
    ∧ (∀ (cfg : OpenAPIConfig) (u1 u2 : String), setBase (setBase cfg u1) u2 = setBase cfg u2)
    ∧ requestUrl (setBase ⟨""⟩ appBaseUrl) getWeatherForecastRequest
        = "https://localhost:7277/WeatherForecast" :=
  ⟨fun cfg url => rfl, fun cfg u1 u2 => rfl, rfl⟩

/-- C9: the binding never swallows a failed or canceled outcome: with the
reference UI's handler configuration (no failure handler installed — its
`#await` block has only the fulfilled branch), a rejected or canceled
settlement surfaces as an unhandled-rejection condition carrying that
outcome, and a rejected settlement is never observed as a rendered
(fulfilled) value under any handler configuration. -/
theorem no_swallowing :
    (∀ e : ApiFailure,
        observeOutcome (α := List WeatherForecast) appHandlesFailure (.rejected e)
          = .unhandledRejection (.rejected e))
    ∧ observeOutcome (α := List WeatherForecast) (ε := ApiFailure) appHandlesFailure .canceled
        = .unhandledRejection .canceled
    ∧ (∀ (b : Bool) (e : ApiFailure),
        (observeOutcome (α := List WeatherForecast) b (.rejected e)).isRendered = false)
    ∧ (∀ b : Bool,
        (observeOutcome (α := List WeatherForecast) (ε := ApiFailure) b .canceled).isRendered
          = false) := by
  refine ⟨fun e => rfl, rfl, ?_, ?_⟩
  · intro b e; cases b <;> rfl
  · intro b; cases b <;> rfl

/-- C10: startup is environment-sensitive exactly as `Program.cs` writes
it: the app additionally listens on `http://0.0.0.0:8080` precisely when
the environment name is `container` (the name the Dockerfile sets), the
Swagger schema and UI are served precisely when the environment is
`Development`, and in any other environment neither behavior is
enabled. -/
theorem startup_environment_sensitivity :
    (∀ env : String,
        ((buildApp env).extraUrls = ["http://0.0.0.0:8080"]
            ↔ envNameIs env "container" = true)
        ∧ ((buildApp env).extraUrls = [] ↔ envNameIs env "container" = false)
        ∧ (buildApp env).swaggerEnabled = envNameIs env "Development"
        ∧ (buildApp env).swaggerUIEnabled = envNameIs env "Development")
    ∧ buildApp dockerfileEnvironment
        = { extraUrls := ["http://0.0.0.0:8080"], swaggerEnabled := false,
            swaggerUIEnabled := false }
    ∧ buildApp "Development"
        = { extraUrls := [], swaggerEnabled := true, swaggerUIEnabled := true }
    ∧ buildApp "Production"
        = { extraUrls := [], swaggerEnabled := false, swaggerUIEnabled := false } := by
  refine ⟨?_, rfl, rfl, rfl⟩
  intro env
  by_cases h : envNameIs env "container" = true
  · refine ⟨?_, ?_, rfl, rfl⟩ <;> simp [buildApp, h]
  · have h2 : envNameIs env "container" = false := by
      cases hb : envNameIs env "container" with
      | false => rfl
      | true => exact absurd hb h
    refine ⟨?_, ?_, rfl, rfl⟩ <;> simp [buildApp, h2]

/-- C10 witness: at the Dockerfile environment name the theorem's first
equivalence is discharged by computation and yields the extra listening
URL. -/
theorem startup_environment_sensitivity_witness :
    envNameIs "container" "container" = true
    ∧ (buildApp "container").extraUrls = ["http://0.0.0.0:8080"] :=
  ⟨rfl, ((startup_environment_sensitivity.1 "container").1).mpr rfl⟩

end ForecastSpec
